import Mathlib

/-
Verification of the snowflake id generator (src/generator.rs).

The Rust code is shallowly embedded as follows:
- machine integers (`u64`) become `Nat` with explicit `% 2 ^ 64` wherever the
  Rust operation can wrap (the wrapping subtraction `timestamp - EPOCH`, the
  wrapping increment inside `increment_sequence`, truncating shifts);
- the wall clock (`SystemTime::now().duration_since(UNIX_EPOCH)`) becomes an
  oracle `Clock : Nat → Option Nat`: reading number `j` yields `some millis`
  on success and `none` when the clock is before the Unix epoch (the case in
  which `duration_since` errors); successive `time_gen` calls consume
  successive indices;
- the busy-wait loop in `til_next_millis` gets explicit fuel; running out of
  fuel (`fuelOut`) models the loop not having terminated yet;
- `.unwrap()` on an `Err` becomes the distinguished outcome `panicked`;
- the atomics (`AtomicU64`) are modelled for serial executions: a call works
  on the state it is given and returns the updated state.
-/

namespace Snowflake

/-- `SnowflakeError` from generator.rs: the four error variants. -/
inductive SnowflakeError where
  | CenterIdInvalid
  | WorkerIdInvalid
  | SystemTimeError
  | ClockMovedBackwards
deriving Repr, DecidableEq

/-- Size of the `u64` value space. -/
def U64 : Nat := 2 ^ 64

/-- Bitwise complement `!x` on `u64`. -/
def u64not (x : Nat) : Nat := (U64 - 1) - x

namespace Constants

/-- `EPOCH` (2023-04-05 06:07:08). -/
def EPOCH : Nat := 1680646028000

/-- `DATA_CENTER_ID_BITS`. -/
def DATA_CENTER_ID_BITS : Nat := 5

/-- `WORKER_ID_BITS`. -/
def WORKER_ID_BITS : Nat := 5

/-- `SEQUENCE_BITS`. -/
def SEQUENCE_BITS : Nat := 12

/-- `MAX_DATA_CENTER_ID = !(!0 << DATA_CENTER_ID_BITS)` on `u64`. -/
def MAX_DATA_CENTER_ID : Nat := u64not ((u64not 0 <<< DATA_CENTER_ID_BITS) % U64)

/-- `MAX_WORKER_ID = !(!0 << WORKER_ID_BITS)` on `u64`. -/
def MAX_WORKER_ID : Nat := u64not ((u64not 0 <<< WORKER_ID_BITS) % U64)

/-- `SEQUENCE_MASK = !(!0 << SEQUENCE_BITS)` on `u64`. -/
def SEQUENCE_MASK : Nat := u64not ((u64not 0 <<< SEQUENCE_BITS) % U64)

/-- `WORKER_ID_SHIFT`. -/
def WORKER_ID_SHIFT : Nat := SEQUENCE_BITS

/-- `CENTER_ID_SHIFT`. -/
def CENTER_ID_SHIFT : Nat := SEQUENCE_BITS + WORKER_ID_BITS

/-- `TIMESTAMP_SHIFT`. -/
def TIMESTAMP_SHIFT : Nat := DATA_CENTER_ID_BITS + WORKER_ID_BITS + SEQUENCE_BITS

/-- `DEFAULT_DATA_CENTER_ID`. -/
def DEFAULT_DATA_CENTER_ID : Nat := 1

/-- `DEFAULT_WORKER_ID`. -/
def DEFAULT_WORKER_ID : Nat := 1

end Constants

lemma MAX_DATA_CENTER_ID_eq : Constants.MAX_DATA_CENTER_ID = 31 := by decide

lemma MAX_WORKER_ID_eq : Constants.MAX_WORKER_ID = 31 := by decide

lemma SEQUENCE_MASK_eq : Constants.SEQUENCE_MASK = 4095 := by decide

lemma WORKER_ID_SHIFT_eq : Constants.WORKER_ID_SHIFT = 12 := by decide

lemma CENTER_ID_SHIFT_eq : Constants.CENTER_ID_SHIFT = 17 := by decide

lemma TIMESTAMP_SHIFT_eq : Constants.TIMESTAMP_SHIFT = 22 := by decide

/-- The state of a `SnowflakeGenerator`: the two immutable node ids and the
two atomically updated counters (`sequence`, `last_timestamp`). -/
structure SnowflakeGenerator where
  center_id : Nat
  worker_id : Nat
  sequence : Nat
  last_timestamp : Nat
deriving Repr, DecidableEq

/-- `SnowflakeGenerator::new(center_id, worker_id)` from generator.rs
(lines 314-329), embedded exactly as written: note that the second
validation branch tests `center_id > MAX_WORKER_ID`, not `worker_id`. -/
def SnowflakeGenerator.new (center_id worker_id : Nat) :
    Except SnowflakeError SnowflakeGenerator :=
  if center_id > Constants.MAX_DATA_CENTER_ID then
    Except.error SnowflakeError.CenterIdInvalid
  else if center_id > Constants.MAX_WORKER_ID then
    Except.error SnowflakeError.WorkerIdInvalid
  else
    Except.ok ⟨center_id, worker_id, 0, 0⟩

/-- `SnowflakeGenerator::builtin()`. -/
def SnowflakeGenerator.builtin : Except SnowflakeError SnowflakeGenerator :=
  SnowflakeGenerator.new Constants.DEFAULT_DATA_CENTER_ID Constants.DEFAULT_WORKER_ID

/-- The wall clock oracle: reading `j` is `some millis`, or `none` when the
system clock is before the Unix epoch (`duration_since` fails). -/
def Clock : Type := Nat → Option Nat

/-- `time_gen()` from generator.rs (lines 392-397): read the clock, cast
`as_millis()` to `u64` (truncating), or fail with `SystemTimeError`. -/
def time_gen (clock : Clock) (i : Nat) : Except SnowflakeError Nat :=
  match clock i with
  | Option.some now => Except.ok (now % U64)
  | Option.none => Except.error SnowflakeError.SystemTimeError

/-- Outcome of `til_next_millis`: a value together with the next clock
reading index, or a panic (`.unwrap()` on `Err`), or fuel exhaustion. -/
inductive TilResult where
  | ok : Nat → Nat → TilResult
  | panicked : TilResult
  | fuelOut : TilResult
deriving Repr, DecidableEq

/-- `til_next_millis(last_timestamp)` from generator.rs (lines 400-407):
busy-poll `time_gen` until the reading strictly exceeds `last_timestamp`.
The extra `fuel` argument bounds the number of loop iterations the model
unrolls; the extra index argument tracks the clock reading position. -/
def til_next_millis (clock : Clock) : Nat → Nat → Nat → TilResult
  | 0, _, _ => TilResult.fuelOut
  | fuel + 1, i, last_timestamp =>
    match time_gen clock i with
    | Except.error _ => TilResult.panicked
    | Except.ok next =>
      if next ≤ last_timestamp then til_next_millis clock fuel (i + 1) last_timestamp
      else TilResult.ok next (i + 1)

/-- Outcome of one `next_id` call: a minted id with the post-call state and
next clock index, an error return (with the state at return time), a panic,
or fuel exhaustion inside the busy-wait. -/
inductive NextIdResult where
  | ok : Nat → SnowflakeGenerator → Nat → NextIdResult
  | err : SnowflakeError → SnowflakeGenerator → Nat → NextIdResult
  | panicked : NextIdResult
  | fuelOut : NextIdResult
deriving Repr, DecidableEq

/-- Wrapping `u64` subtraction `a - b` (for `a < 2^64`, `b ≤ 2^64`). -/
def u64sub (a b : Nat) : Nat := (a + (U64 - b)) % U64

/-- The id-packing expression from `next_id` (generator.rs lines 383-388):
`((timestamp - EPOCH) << TIMESTAMP_SHIFT) | (center_id << CENTER_ID_SHIFT)
| (worker_id << WORKER_ID_SHIFT) | sequence`, with the `u64` wrap-around of
the subtraction and of the shifts made explicit. -/
def pack_id (center_id worker_id timestamp sequence : Nat) : Nat :=
  ((u64sub timestamp Constants.EPOCH <<< Constants.TIMESTAMP_SHIFT) % U64)
    ||| ((center_id <<< Constants.CENTER_ID_SHIFT) % U64)
    ||| ((worker_id <<< Constants.WORKER_ID_SHIFT) % U64)
    ||| sequence

/-- The tail of `next_id` once the final `timestamp` and `sequence` are
fixed: `set_sequence`, `set_last_timestamp`, then the id computation. -/
def next_id_store (g : SnowflakeGenerator) (timestamp sequence i : Nat) : NextIdResult :=
  NextIdResult.ok (pack_id g.center_id g.worker_id timestamp sequence)
    ⟨g.center_id, g.worker_id, sequence, timestamp⟩ i

/-- `next_id` from the `increment_sequence()` call onward (generator.rs
lines 369-388). `increment_sequence` is `fetch_add(1, SeqCst)` and returns
the pre-increment value; in a serial execution the transient stored value is
overwritten by `set_sequence` before anyone reads it. -/
def next_id_seq (g : SnowflakeGenerator) (clock : Clock) (fuel i timestamp : Nat) :
    NextIdResult :=
  let sequence := g.sequence
  if timestamp = g.last_timestamp then
    let sequence := ((sequence + 1) % U64) &&& Constants.SEQUENCE_MASK
    if sequence = 0 then
      match til_next_millis clock fuel i timestamp with
      | TilResult.ok timestamp2 i2 => next_id_store g timestamp2 sequence i2
      | TilResult.panicked => NextIdResult.panicked
      | TilResult.fuelOut => NextIdResult.fuelOut
    else next_id_store g timestamp sequence i
  else
    next_id_store g timestamp (sequence &&& Constants.SEQUENCE_MASK) i

/-- `next_id()` from generator.rs (lines 353-389). The two leading
`time_gen().unwrap()` reads consume clock indices `i` (and `i + 1` in the
clock-regression branch); `TimeUnit::Milliseconds.sleep(delta << 1)` has no
observable effect on the model state. -/
def next_id (g : SnowflakeGenerator) (clock : Clock) (fuel i : Nat) : NextIdResult :=
  match time_gen clock i with
  | Except.error _ => NextIdResult.panicked
  | Except.ok timestamp =>
    if timestamp < g.last_timestamp then
      let delta := g.last_timestamp - timestamp
      if delta ≤ 1 <<< 3 then
        match time_gen clock (i + 1) with
        | Except.error _ => NextIdResult.panicked
        | Except.ok timestamp2 =>
          if timestamp2 < g.last_timestamp then
            NextIdResult.err SnowflakeError.ClockMovedBackwards g (i + 2)
          else next_id_seq g clock fuel (i + 2) timestamp2
      else next_id_seq g clock fuel (i + 1) timestamp
    else next_id_seq g clock fuel (i + 1) timestamp

/-- Serial driver: `n` successive `next_id` calls on one instance. Each
successful call contributes the triple (id, timestamp used, sequence used)
(the post-call `last_timestamp` and `sequence` of that call); the run stops
with `none` if any call does not return normally. -/
def run_next_ids (clock : Clock) (fuel : Nat) :
    Nat → SnowflakeGenerator → Nat →
      Option (List (Nat × Nat × Nat) × SnowflakeGenerator × Nat)
  | 0, g, i => some ([], g, i)
  | n + 1, g, i =>
    match next_id g clock fuel i with
    | NextIdResult.ok v g2 i2 =>
      match run_next_ids clock fuel n g2 i2 with
      | some (out, g3, i3) => some ((v, g2.last_timestamp, g2.sequence) :: out, g3, i3)
      | none => none
    | _ => none

/-- A well-behaved wall clock for runs that consume at most `N` readings:
total and monotonically non-decreasing everywhere, never before the custom
epoch, within the 41-bit timestamp window on the first `N` readings, and,
while the budget lasts, strictly advancing within any window of `fuel`
readings (so the busy-wait in `til_next_millis` terminates). -/
def GoodClock (c : Nat → Nat) (fuel N : Nat) : Prop :=
  (∀ j k, j ≤ k → c j ≤ c k) ∧
  (∀ j, Constants.EPOCH ≤ c j) ∧
  (∀ j, j ≤ N → c j < Constants.EPOCH + 2 ^ 41) ∧
  (∀ j, j + fuel ≤ N → ∃ k, k < fuel ∧ c j < c (j + k))

/-- Invariant of a generator state that has already minted at least one id,
relative to the clock position `i` of the next reading. -/
def Inv (c : Nat → Nat) (g : SnowflakeGenerator) (i : Nat) : Prop :=
  g.center_id ≤ 31 ∧ g.worker_id ≤ 31 ∧ g.sequence ≤ 4095 ∧
  Constants.EPOCH ≤ g.last_timestamp ∧
  g.last_timestamp < Constants.EPOCH + 2 ^ 41 ∧
  g.last_timestamp ≤ c i

end Snowflake

namespace Snowflake

-- ---------------------------------------------------------------- helpers

lemma U64_eq : U64 = 18446744073709551616 := by norm_num [U64]

lemma EPOCH_eq : Constants.EPOCH = 1680646028000 := rfl

lemma and_4095_eq_mod (x : Nat) : x &&& 4095 = x % 4096 := by
  have h : (4095 : Nat) = 2 ^ 12 - 1 := by norm_num
  rw [h, Nat.and_pow_two_sub_one_eq_mod]

/-- Bit fields packed by `|` coincide with their sum when the fields are
disjoint: here the generic shape used by `pack_id`. -/
lemma or_fields_eq_add (a center_id worker_id s : Nat)
    (hc : center_id ≤ 31) (hw : worker_id ≤ 31) (hs : s ≤ 4095) :
    a <<< 22 ||| center_id <<< 17 ||| worker_id <<< 12 ||| s =
      a * 4194304 + center_id * 131072 + worker_id * 4096 + s := by
  have p12 : (2 : Nat) ^ 12 = 4096 := by norm_num
  have p17 : (2 : Nat) ^ 17 = 131072 := by norm_num
  have p22 : (2 : Nat) ^ 22 = 4194304 := by norm_num
  have hs12 : s < 2 ^ 12 := by rw [p12]; omega
  have hw17 : 2 ^ 12 * worker_id + s < 2 ^ 17 := by rw [p12, p17]; omega
  have hc22 : 2 ^ 17 * center_id + (2 ^ 12 * worker_id + s) < 2 ^ 22 := by
    rw [p12, p17, p22]; omega
  rw [Nat.lor_assoc, Nat.lor_assoc]
  rw [Nat.shiftLeft_eq, Nat.shiftLeft_eq, Nat.shiftLeft_eq]
  rw [Nat.mul_comm a, Nat.mul_comm center_id, Nat.mul_comm worker_id]
  rw [← Nat.mul_add_lt_is_or hs12 worker_id]
  rw [← Nat.mul_add_lt_is_or hw17 center_id]
  rw [← Nat.mul_add_lt_is_or hc22 a]
  rw [p12, p17, p22]
  omega

/-- In the realistic range (timestamp at or after the custom epoch and
within the 41-bit field, ids within their 5/5/12-bit fields) the wrapping
`u64` packing expression equals the plain arithmetic sum of the shifted
fields. -/
lemma pack_id_eq_add (center_id worker_id t s : Nat)
    (hc : center_id ≤ 31) (hw : worker_id ≤ 31) (hs : s ≤ 4095)
    (ht1 : Constants.EPOCH ≤ t) (ht2 : t < Constants.EPOCH + 2 ^ 41) :
    pack_id center_id worker_id t s =
      (t - Constants.EPOCH) * 4194304 + center_id * 131072 +
        worker_id * 4096 + s := by
  have p41 : (2 : Nat) ^ 41 = 2199023255552 := by norm_num
  rw [p41] at ht2
  rw [EPOCH_eq] at ht1 ht2
  unfold pack_id u64sub
  rw [TIMESTAMP_SHIFT_eq, CENTER_ID_SHIFT_eq, WORKER_ID_SHIFT_eq, EPOCH_eq]
  have h1 : (t + (U64 - 1680646028000)) % U64 = t - 1680646028000 := by
    have e1 : t + (U64 - 1680646028000) = (t - 1680646028000) + U64 := by
      rw [U64_eq]; omega
    rw [e1, Nat.add_mod_right]
    apply Nat.mod_eq_of_lt
    rw [U64_eq]; omega
  rw [h1]
  rw [Nat.shiftLeft_eq, Nat.shiftLeft_eq, Nat.shiftLeft_eq]
  have p12 : (2 : Nat) ^ 12 = 4096 := by norm_num
  have p17 : (2 : Nat) ^ 17 = 131072 := by norm_num
  have p22 : (2 : Nat) ^ 22 = 4194304 := by norm_num
  rw [p12, p17, p22]
  have h2 : (t - 1680646028000) * 4194304 % U64 = (t - 1680646028000) * 4194304 := by
    apply Nat.mod_eq_of_lt; rw [U64_eq]; omega
  have h3 : center_id * 131072 % U64 = center_id * 131072 := by
    apply Nat.mod_eq_of_lt; rw [U64_eq]; omega
  have h4 : worker_id * 4096 % U64 = worker_id * 4096 := by
    apply Nat.mod_eq_of_lt; rw [U64_eq]; omega
  rw [h2, h3, h4]
  have := or_fields_eq_add (t - 1680646028000) center_id worker_id s hc hw hs
  rw [Nat.shiftLeft_eq, Nat.shiftLeft_eq, Nat.shiftLeft_eq, p12, p17, p22] at this
  exact this

/-- `next_id_seq` (the tail of `next_id` from `increment_sequence` on)
never returns through the `err` constructor: its only error-free exits are
minted ids, and its abnormal exits are panics or fuel exhaustion. -/
lemma next_id_seq_ne_err (g : SnowflakeGenerator) (clock : Clock)
    (fuel i t : Nat) (e : SnowflakeError) (g2 : SnowflakeGenerator) (i2 : Nat) :
    next_id_seq g clock fuel i t ≠ NextIdResult.err e g2 i2 := by
  intro h
  unfold next_id_seq next_id_store at h
  dsimp only at h
  by_cases h1 : t = g.last_timestamp
  · simp only [if_pos h1] at h
    by_cases h2 : (g.sequence + 1) % U64 &&& Constants.SEQUENCE_MASK = 0
    · simp only [if_pos h2] at h
      cases htil : til_next_millis clock fuel i t with
      | ok t2 j2 => rw [htil] at h; cases h
      | panicked => rw [htil] at h; cases h
      | fuelOut => rw [htil] at h; cases h
    · simp only [if_neg h2] at h; cases h
  · simp only [if_neg h1] at h; cases h

/-- The busy-wait terminates and yields a strictly larger reading as soon
as some reading within the fuel window strictly exceeds `last`. -/
lemma til_next_millis_ok (c : Nat → Nat) :
    ∀ fuel i last, (∀ j, j < i + fuel → c j < U64) →
      (∃ k, k < fuel ∧ last < c (i + k)) →
      ∃ t2 i2,
        til_next_millis (fun j => some (c j)) fuel i last = TilResult.ok t2 i2 ∧
        last < t2 ∧ i < i2 ∧ t2 = c (i2 - 1) ∧ i2 ≤ i + fuel := by
  intro fuel
  induction fuel with
  | zero =>
    rintro i last _ ⟨k, hk, _⟩
    omega
  | succ f ih =>
    rintro i last h64 ⟨k, hk, hck⟩
    unfold til_next_millis time_gen
    dsimp only
    rw [Nat.mod_eq_of_lt (h64 i (by omega))]
    by_cases hle : c i ≤ last
    · rw [if_pos hle]
      have hkne : k ≠ 0 := by
        intro h0
        subst h0
        rw [Nat.add_zero] at hck
        omega
      obtain ⟨t2, i2, heq, h2, h3, h4, h5⟩ := ih (i + 1) last
        (by intro j hj; exact h64 j (by omega))
        ⟨k - 1, by omega, by rw [show i + 1 + (k - 1) = i + k by omega]; exact hck⟩
      exact ⟨t2, i2, heq, h2, by omega, h4, by omega⟩
    · rw [if_neg hle]
      refine ⟨c i, i + 1, rfl, by omega, by omega, by simp, by omega⟩

/-- When the reading is not behind `last_timestamp`, `next_id` reduces to
its sequence-handling tail. -/
lemma next_id_no_regression (g : SnowflakeGenerator) (c : Nat → Nat) (fuel i : Nat)
    (h64 : c i < U64) (hge : g.last_timestamp ≤ c i) :
    next_id g (fun j => some (c j)) fuel i =
      next_id_seq g (fun j => some (c j)) fuel (i + 1) (c i) := by
  unfold next_id time_gen
  dsimp only
  rw [Nat.mod_eq_of_lt h64, if_neg (by omega : ¬ c i < g.last_timestamp)]

/-- Fresh millisecond: the pre-increment sequence is masked and stored. -/
lemma next_id_seq_new_ms (g : SnowflakeGenerator) (clock : Clock) (fuel i t : Nat)
    (hne : t ≠ g.last_timestamp) :
    next_id_seq g clock fuel i t =
      next_id_store g t (g.sequence &&& Constants.SEQUENCE_MASK) i := by
  unfold next_id_seq
  dsimp only
  rw [if_neg hne]

/-- Same millisecond, no wrap: the incremented sequence is stored. -/
lemma next_id_seq_same_incr (g : SnowflakeGenerator) (clock : Clock) (fuel i t : Nat)
    (heq : t = g.last_timestamp) (hs64 : g.sequence + 1 < U64)
    (hnowrap : (g.sequence + 1) % 4096 ≠ 0) :
    next_id_seq g clock fuel i t =
      next_id_store g t ((g.sequence + 1) % 4096) i := by
  unfold next_id_seq
  dsimp only
  rw [if_pos heq, Nat.mod_eq_of_lt hs64, SEQUENCE_MASK_eq, and_4095_eq_mod,
    if_neg hnowrap]

/-- Same millisecond, wrap: the call busy-waits for the next millisecond. -/
lemma next_id_seq_same_wrap (g : SnowflakeGenerator) (clock : Clock) (fuel i t : Nat)
    (heq : t = g.last_timestamp) (hs64 : g.sequence + 1 < U64)
    (hwrap : (g.sequence + 1) % 4096 = 0) :
    next_id_seq g clock fuel i t =
      (match til_next_millis clock fuel i t with
       | TilResult.ok t2 i2 => next_id_store g t2 ((g.sequence + 1) % 4096) i2
       | TilResult.panicked => NextIdResult.panicked
       | TilResult.fuelOut => NextIdResult.fuelOut) := by
  unfold next_id_seq
  dsimp only
  rw [if_pos heq, Nat.mod_eq_of_lt hs64, SEQUENCE_MASK_eq, and_4095_eq_mod,
    if_pos hwrap]

/-- Same millisecond, wrap, with a terminating busy-wait: the id is minted
with sequence 0 at the later timestamp. -/
lemma next_id_seq_same_wrap_ok (g : SnowflakeGenerator) (clock : Clock)
    (fuel i t t2 i2 : Nat)
    (heq : t = g.last_timestamp) (hs64 : g.sequence + 1 < U64)
    (hwrap : (g.sequence + 1) % 4096 = 0)
    (htil : til_next_millis clock fuel i t = TilResult.ok t2 i2) :
    next_id_seq g clock fuel i t = next_id_store g t2 0 i2 := by
  rw [next_id_seq_same_wrap g clock fuel i t heq hs64 hwrap, htil, hwrap]

/-- One successful `next_id` step from an invariant state: the call mints
an id strictly greater than the packed form of the stored
(`last_timestamp`, `sequence`) pair — which is the id of the previous call
— re-establishes the invariant, and consumes at most `fuel + 1` clock
readings. -/
lemma next_id_step (c : Nat → Nat) (fuel N : Nat) (g : SnowflakeGenerator) (i : Nat)
    (hc : GoodClock c fuel N) (hg : Inv c g i) (hbud : i + fuel + 1 ≤ N) :
    ∃ v g2 i2,
      next_id g (fun j => some (c j)) fuel i = NextIdResult.ok v g2 i2 ∧
      Inv c g2 i2 ∧ i < i2 ∧ i2 ≤ i + fuel + 1 ∧
      g2.center_id = g.center_id ∧ g2.worker_id = g.worker_id ∧
      v = pack_id g.center_id g.worker_id g2.last_timestamp g2.sequence ∧
      pack_id g.center_id g.worker_id g.last_timestamp g.sequence < v := by
  obtain ⟨hmono, hlo, hhi, hprog⟩ := hc
  obtain ⟨hcid, hwid, hseq, hl1, hl2, hl3⟩ := hg
  have p41 : (2 : Nat) ^ 41 = 2199023255552 := by norm_num
  have h64N : ∀ j, j ≤ N → c j < U64 := by
    intro j hj
    have h := hhi j hj
    rw [U64_eq]
    rw [p41, EPOCH_eq] at h
    omega
  have h64i : c i < U64 := h64N i (by omega)
  rw [next_id_no_regression g c fuel i h64i hl3]
  by_cases hsame : c i = g.last_timestamp
  · have hs64 : g.sequence + 1 < U64 := by rw [U64_eq]; omega
    by_cases hwrap : (g.sequence + 1) % 4096 = 0
    · -- sequence space exhausted: wait for the next millisecond
      obtain ⟨k, hk, hck⟩ := hprog i (by omega)
      have hkne : k ≠ 0 := by
        intro h0
        subst h0
        rw [Nat.add_zero] at hck
        omega
      obtain ⟨t2, i2, htil, ht1, hti, htc, htb⟩ :=
        til_next_millis_ok c fuel (i + 1) (c i)
          (by intro j hj; exact h64N j (by omega))
          ⟨k - 1, by omega, by rw [show i + 1 + (k - 1) = i + k by omega]; exact hck⟩
      rw [next_id_seq_same_wrap_ok g _ fuel (i + 1) (c i) t2 i2 hsame hs64 hwrap htil]
      unfold next_id_store
      have hi2N : i2 ≤ N := by omega
      have ht2lo : Constants.EPOCH ≤ t2 := by rw [htc]; exact hlo (i2 - 1)
      have ht2hi : t2 < Constants.EPOCH + 2 ^ 41 := by
        rw [htc]; exact hhi (i2 - 1) (by omega)
      have ht2next : t2 ≤ c i2 := by rw [htc]; exact hmono (i2 - 1) i2 (by omega)
      refine ⟨_, _, _, rfl, ⟨hcid, hwid, Nat.zero_le 4095, ht2lo, ht2hi, ht2next⟩,
        by omega, by omega, rfl, rfl, rfl, ?_⟩
      rw [pack_id_eq_add g.center_id g.worker_id g.last_timestamp g.sequence
            hcid hwid hseq hl1 hl2,
          pack_id_eq_add g.center_id g.worker_id t2 0 hcid hwid (by omega)
            ht2lo ht2hi]
      rw [p41] at ht2hi hl2
      rw [EPOCH_eq] at *
      omega
    · -- same millisecond, sequence increments by one
      have hsucc : (g.sequence + 1) % 4096 = g.sequence + 1 := by omega
      rw [next_id_seq_same_incr g _ fuel (i + 1) (c i) hsame hs64 hwrap, hsucc]
      unfold next_id_store
      have hcin : Constants.EPOCH ≤ c i := hlo i
      have hcih : c i < Constants.EPOCH + 2 ^ 41 := hhi i (by omega)
      have hnext : c i ≤ c (i + 1) := hmono i (i + 1) (by omega)
      have hslt : g.sequence + 1 ≤ 4095 := by omega
      refine ⟨_, _, _, rfl, ⟨hcid, hwid, hslt, hcin, hcih, hnext⟩,
        by omega, by omega, rfl, rfl, rfl, ?_⟩
      rw [pack_id_eq_add g.center_id g.worker_id g.last_timestamp g.sequence
            hcid hwid hseq hl1 hl2,
          pack_id_eq_add g.center_id g.worker_id (c i) (g.sequence + 1)
            hcid hwid hslt hcin hcih]
      rw [hsame]
      omega
  · -- fresh millisecond: the stored sequence is masked and reused
    have hgt : g.last_timestamp < c i := by omega
    have hmask : g.sequence &&& Constants.SEQUENCE_MASK = g.sequence := by
      rw [SEQUENCE_MASK_eq, and_4095_eq_mod]
      omega
    rw [next_id_seq_new_ms g _ fuel (i + 1) (c i) hsame, hmask]
    unfold next_id_store
    have hcin : Constants.EPOCH ≤ c i := hlo i
    have hcih : c i < Constants.EPOCH + 2 ^ 41 := hhi i (by omega)
    have hnext : c i ≤ c (i + 1) := hmono i (i + 1) (by omega)
    refine ⟨_, _, _, rfl, ⟨hcid, hwid, hseq, hcin, hcih, hnext⟩,
      by omega, by omega, rfl, rfl, rfl, ?_⟩
    rw [pack_id_eq_add g.center_id g.worker_id g.last_timestamp g.sequence
          hcid hwid hseq hl1 hl2,
        pack_id_eq_add g.center_id g.worker_id (c i) g.sequence
          hcid hwid hseq hcin hcih]
    rw [p41] at hcih hl2
    rw [EPOCH_eq] at *
    omega

/-- Unfolding equation for `run_next_ids` at a successful first call. -/
lemma run_next_ids_succ (clock : Clock) (fuel n : Nat) (g : SnowflakeGenerator)
    (i v : Nat) (g2 : SnowflakeGenerator) (i2 : Nat)
    (h : next_id g clock fuel i = NextIdResult.ok v g2 i2) :
    run_next_ids clock fuel (n + 1) g i =
      (match run_next_ids clock fuel n g2 i2 with
       | some (out, g3, i3) =>
         some ((v, g2.last_timestamp, g2.sequence) :: out, g3, i3)
       | none => none) := by
  conv_lhs => unfold run_next_ids
  rw [h]

/-- Serial soundness from an invariant state: all `n` calls succeed, each
minted id is the packed form of that call's stored pair, the stored pairs
stay in range, and — prefixed with the packed form of the incoming state,
which is the previous call's id — the ids form a strictly increasing
chain. -/
lemma run_next_ids_spec (c : Nat → Nat) (fuel N : Nat) (hc : GoodClock c fuel N) :
    ∀ n g i, Inv c g i → i + n * (fuel + 1) ≤ N →
    ∃ out g2 i2,
      run_next_ids (fun j => some (c j)) fuel n g i = some (out, g2, i2) ∧
      out.length = n ∧
      (∀ x ∈ out,
        x.1 = pack_id g.center_id g.worker_id x.2.1 x.2.2 ∧
        x.2.2 ≤ 4095 ∧ Constants.EPOCH ≤ x.2.1 ∧
        x.2.1 < Constants.EPOCH + 2 ^ 41) ∧
      List.Chain (fun a b => a < b)
        (pack_id g.center_id g.worker_id g.last_timestamp g.sequence)
        (out.map (fun x => x.1)) := by
  intro n
  induction n with
  | zero =>
    intro g i hg _
    refine ⟨[], g, i, rfl, rfl, ?_, ?_⟩
    · intro x hx
      cases hx
    · exact List.Chain.nil
  | succ m ih =>
    intro g i hg hbud
    rw [Nat.succ_mul] at hbud
    obtain ⟨v, g2, i2, hstep, hInv2, hlt, hle, hcid2, hwid2, hv, hmon⟩ :=
      next_id_step c fuel N g i hc hg (by omega)
    obtain ⟨out, g3, i3, hrun, hlen, hprops, hchain⟩ := ih g2 i2 hInv2 (by omega)
    refine ⟨(v, g2.last_timestamp, g2.sequence) :: out, g3, i3, ?_, ?_, ?_, ?_⟩
    · rw [run_next_ids_succ _ fuel m g i v g2 i2 hstep, hrun]
    · simp [hlen]
    · intro x hx
      cases hx with
      | head =>
        obtain ⟨_, _, hs2, hlo2, hhi2, _⟩ := hInv2
        exact ⟨hv, hs2, hlo2, hhi2⟩
      | tail _ hx2 =>
        obtain ⟨ha, hb, hcx, hd⟩ := hprops x hx2
        rw [hcid2, hwid2] at ha
        exact ⟨ha, hb, hcx, hd⟩
    · simp only [List.map_cons]
      refine List.Chain.cons hmon ?_
      rw [hv, ← hcid2, ← hwid2]
      exact hchain

/-- The documented packed form: in the realistic range the wrapping
packing expression equals the plain shift-and-or packing of the
specification. -/
lemma pack_id_eq_doc (center_id worker_id t s : Nat)
    (hc : center_id ≤ 31) (hw : worker_id ≤ 31) (hs : s ≤ 4095)
    (ht1 : Constants.EPOCH ≤ t) (ht2 : t < Constants.EPOCH + 2 ^ 41) :
    pack_id center_id worker_id t s =
      ((t - Constants.EPOCH) <<< 22) ||| (center_id <<< 17) |||
        (worker_id <<< 12) ||| s := by
  rw [pack_id_eq_add center_id worker_id t s hc hw hs ht1 ht2]
  exact (or_fields_eq_add (t - Constants.EPOCH) center_id worker_id s hc hw hs).symm

/-- Field extraction from the additive representation: dividing and
masking recovers the center and worker fields for every timestamp part. -/
lemma extract_fields (a center_id worker_id s : Nat)
    (hc : center_id ≤ 31) (hw : worker_id ≤ 31) (hs : s ≤ 4095) :
    ((a * 4194304 + center_id * 131072 + worker_id * 4096 + s) >>> 17) &&& 31 =
      center_id ∧
    ((a * 4194304 + center_id * 131072 + worker_id * 4096 + s) >>> 12) &&& 31 =
      worker_id := by
  have h31 : ∀ x : Nat, x &&& 31 = x % 32 := by
    intro x
    rw [show (31 : Nat) = 2 ^ 5 - 1 by norm_num, Nat.and_pow_two_sub_one_eq_mod]
  constructor
  · rw [Nat.shiftRight_eq_div_pow, show (2 : Nat) ^ 17 = 131072 by norm_num, h31]
    omega
  · rw [Nat.shiftRight_eq_div_pow, show (2 : Nat) ^ 12 = 4096 by norm_num, h31]
    omega

/-- `pack_id` in additive form with the (possibly wrapped) timestamp part
isolated: valid for every timestamp, bounded fields or not overflowed. -/
lemma pack_id_repr (center_id worker_id t s : Nat)
    (hc : center_id ≤ 31) (hw : worker_id ≤ 31) (hs : s ≤ 4095) :
    pack_id center_id worker_id t s =
      (u64sub t Constants.EPOCH % 2 ^ 42) * 4194304 + center_id * 131072 +
        worker_id * 4096 + s := by
  unfold pack_id
  rw [TIMESTAMP_SHIFT_eq, CENTER_ID_SHIFT_eq, WORKER_ID_SHIFT_eq]
  rw [Nat.shiftLeft_eq, Nat.shiftLeft_eq, Nat.shiftLeft_eq]
  rw [show (2 : Nat) ^ 22 = 4194304 by norm_num,
      show (2 : Nat) ^ 17 = 131072 by norm_num,
      show (2 : Nat) ^ 12 = 4096 by norm_num]
  have hU : U64 = 2 ^ 42 * 4194304 := by norm_num [U64]
  have hbig : (2 : Nat) ^ 42 * 4194304 = 18446744073709551616 := by norm_num
  rw [hU, Nat.mul_mod_mul_right]
  have h3 : center_id * 131072 % (2 ^ 42 * 4194304) = center_id * 131072 := by
    apply Nat.mod_eq_of_lt
    rw [hbig]
    omega
  have h4 : worker_id * 4096 % (2 ^ 42 * 4194304) = worker_id * 4096 := by
    apply Nat.mod_eq_of_lt
    rw [hbig]
    omega
  rw [h3, h4]
  have h := or_fields_eq_add (u64sub t Constants.EPOCH % 2 ^ 42) center_id
    worker_id s hc hw hs
  rw [Nat.shiftLeft_eq, Nat.shiftLeft_eq, Nat.shiftLeft_eq,
      show (2 : Nat) ^ 22 = 4194304 by norm_num,
      show (2 : Nat) ^ 17 = 131072 by norm_num,
      show (2 : Nat) ^ 12 = 4096 by norm_num] at h
  exact h

/-- Shape of every id minted by the tail of `next_id`: the packed form of
the stored pair, with the stored sequence masked into range, and the node
ids untouched. -/
lemma next_id_seq_ok_shape (g : SnowflakeGenerator) (clock : Clock)
    (fuel i t v : Nat) (g2 : SnowflakeGenerator) (i2 : Nat)
    (h : next_id_seq g clock fuel i t = NextIdResult.ok v g2 i2) :
    v = pack_id g.center_id g.worker_id g2.last_timestamp g2.sequence ∧
    g2.center_id = g.center_id ∧ g2.worker_id = g.worker_id ∧
    g2.sequence ≤ 4095 := by
  have hmask : ∀ x : Nat, x &&& Constants.SEQUENCE_MASK ≤ 4095 := by
    intro x
    rw [SEQUENCE_MASK_eq, and_4095_eq_mod]
    omega
  unfold next_id_seq next_id_store at h
  dsimp only at h
  by_cases h1 : t = g.last_timestamp
  · rw [if_pos h1] at h
    by_cases h2 : (g.sequence + 1) % U64 &&& Constants.SEQUENCE_MASK = 0
    · rw [if_pos h2] at h
      cases htil : til_next_millis clock fuel i t with
      | ok t2 j2 =>
        rw [htil] at h
        injection h with hv hg hi
        subst hg
        exact ⟨hv.symm, rfl, rfl, hmask _⟩
      | panicked => rw [htil] at h; cases h
      | fuelOut => rw [htil] at h; cases h
    · rw [if_neg h2] at h
      injection h with hv hg hi
      subst hg
      exact ⟨hv.symm, rfl, rfl, hmask _⟩
  · rw [if_neg h1] at h
    injection h with hv hg hi
    subst hg
    exact ⟨hv.symm, rfl, rfl, hmask _⟩

/-- Shape of every id returned by a successful `next_id` call. -/
lemma next_id_ok_shape (g : SnowflakeGenerator) (clock : Clock) (fuel i v : Nat)
    (g2 : SnowflakeGenerator) (i2 : Nat)
    (h : next_id g clock fuel i = NextIdResult.ok v g2 i2) :
    v = pack_id g.center_id g.worker_id g2.last_timestamp g2.sequence ∧
    g2.center_id = g.center_id ∧ g2.worker_id = g.worker_id ∧
    g2.sequence ≤ 4095 := by
  unfold next_id at h
  cases hr : time_gen clock i with
  | error e2 => rw [hr] at h; cases h
  | ok t =>
    rw [hr] at h
    dsimp only at h
    by_cases h1 : t < g.last_timestamp
    · rw [if_pos h1] at h
      by_cases h2 : g.last_timestamp - t ≤ 1 <<< 3
      · rw [if_pos h2] at h
        cases hr2 : time_gen clock (i + 1) with
        | error e3 => rw [hr2] at h; cases h
        | ok t2 =>
          rw [hr2] at h
          dsimp only at h
          by_cases h3 : t2 < g.last_timestamp
          · rw [if_pos h3] at h; cases h
          · rw [if_neg h3] at h
            exact next_id_seq_ok_shape g clock fuel (i + 2) t2 v g2 i2 h
      · rw [if_neg h2] at h
        exact next_id_seq_ok_shape g clock fuel (i + 1) t v g2 i2 h
    · rw [if_neg h1] at h
      exact next_id_seq_ok_shape g clock fuel (i + 1) t v g2 i2 h

-- ---------------------------------------------------------------- C3

/-- C3 (code behaviour at the failing input): the claim says
`new(center_id, worker_id)` fails with `WorkerIdInvalid` when
`worker_id > 31`; the code instead validates `center_id` in both branches
(generator.rs line 319 tests `center_id > MAX_WORKER_ID`), so
`new(0, 32)` succeeds even though `worker_id = 32 > 31`. -/
theorem c3_worker_validation_slip :
    SnowflakeGenerator.new 0 32 = Except.ok ⟨0, 32, 0, 0⟩ := by rfl

-- ---------------------------------------------------------------- C10

/-- C10: for every `center_id ≤ 31`, `new` succeeds for every `worker_id`
(including `worker_id > 31`), and `new` never returns `WorkerIdInvalid`,
because both validation branches test `center_id` and the two maxima are
both 31. -/
theorem c10_new_never_worker_invalid (center_id worker_id : Nat) :
    (center_id ≤ 31 →
      SnowflakeGenerator.new center_id worker_id =
        Except.ok ⟨center_id, worker_id, 0, 0⟩) ∧
    SnowflakeGenerator.new center_id worker_id ≠
      Except.error SnowflakeError.WorkerIdInvalid := by
  unfold SnowflakeGenerator.new
  rw [MAX_DATA_CENTER_ID_eq, MAX_WORKER_ID_eq]
  constructor
  · intro h
    rw [if_neg (by omega), if_neg (by omega)]
  · by_cases h : center_id > 31
    · rw [if_pos h]
      exact fun hcontra => by cases hcontra
    · rw [if_neg h, if_neg h]
      exact fun hcontra => by cases hcontra

/-- Witness for C10 at `center_id = 1`, `worker_id = 32`. -/
theorem c10_new_never_worker_invalid_witness :
    SnowflakeGenerator.new 1 32 = Except.ok ⟨1, 32, 0, 0⟩ ∧
    SnowflakeGenerator.new 1 32 ≠ Except.error SnowflakeError.WorkerIdInvalid :=
  ⟨(c10_new_never_worker_invalid 1 32).1 (by omega),
   (c10_new_never_worker_invalid 1 32).2⟩

-- ---------------------------------------------------------------- C6

/-- C6 (counterexample): with `epoch = 1680646028000`, `center_id = 1`,
`worker_id = 1`, clock reading `1680646028001` and sequence 0, the id the
code returns is `(1 <<< 22) ||| (1 <<< 17) ||| (1 <<< 12) ||| 0 = 4329472`,
not `4325376` as the claim computes: the claimed numeral drops the
`worker_id <<< 12` contribution. -/
theorem c6_example_numeral_wrong :
    next_id ⟨1, 1, 0, 0⟩ (fun _ => some 1680646028001) 5 0 =
      NextIdResult.ok 4329472 ⟨1, 1, 0, 1680646028001⟩ 1 ∧
    (4329472 : Nat) ≠ 4325376 := by
  constructor
  · decide
  · decide

/-- C6 (amended): the call returns exactly
`(1 <<< 22) ||| (1 <<< 17) ||| (1 <<< 12) ||| 0`, which is `4329472`. -/
theorem c6_example_id :
    next_id ⟨1, 1, 0, 0⟩ (fun _ => some 1680646028001) 5 0 =
      NextIdResult.ok ((1 <<< 22) ||| (1 <<< 17) ||| (1 <<< 12) ||| 0)
        ⟨1, 1, 0, 1680646028001⟩ 1 := by decide

-- ---------------------------------------------------------------- C2

/-- C2 (code behaviour at the failing input): the claim says a clock
regression larger than the 8 ms threshold fails immediately with
`ClockMovedBackwards` and that no successful call carries a timestamp
below `last_timestamp`. In the code the over-threshold branch falls
through without any error (generator.rs lines 357-367 have no `else`):
with `last_timestamp = EPOCH + 100` and the clock reading `EPOCH`
(delta 100 > 8), the call succeeds, mints the id with timestamp field 0
(i.e. timestamp `EPOCH`, 100 ms behind), and rolls `last_timestamp`
back to `EPOCH`. -/
theorem c2_large_regression_not_refused :
    next_id ⟨1, 1, 0, Constants.EPOCH + 100⟩ (fun _ => some Constants.EPOCH) 5 0 =
      NextIdResult.ok 135168 ⟨1, 1, 0, Constants.EPOCH⟩ 1 ∧
    Constants.EPOCH < Constants.EPOCH + 100 := by
  constructor
  · decide
  · decide

-- ---------------------------------------------------------------- C4

/-- C4 (counterexample): three serial calls on a fresh generator, the
first two in millisecond `EPOCH + 1` and the third in `EPOCH + 2`. The
third call observes `now > last_timestamp`, yet both its minted sequence
field (`8523777 &&& 4095 = 1`) and the stored sequence after the call are
`1`, not `0`: the code masks the previous sequence instead of resetting
it. -/
theorem c4_sequence_not_reset :
    run_next_ids (fun j => some (if j ≤ 1 then 1680646028001 else 1680646028002)) 5
        3 ⟨1, 1, 0, 0⟩ 0 =
      some ([(4329472, 1680646028001, 0), (4329473, 1680646028001, 1),
             (8523777, 1680646028002, 1)], ⟨1, 1, 1, 1680646028002⟩, 3) ∧
    8523777 &&& 4095 = 1 ∧ (1 : Nat) ≠ 0 := by
  refine ⟨by decide, by decide, by decide⟩

/-- C4 (amended): when a call observes `now` strictly greater than
`last_timestamp`, the minted sequence is the pre-call stored sequence
masked by `SEQUENCE_MASK` (so it is 0 only when the stored counter was a
multiple of 4096, e.g. on a fresh instance), and that masked value — not
0 — is stored back. -/
theorem c4_new_millis_sequence_masked (g : SnowflakeGenerator) (c : Nat → Nat)
    (fuel i : Nat) (h64 : c i < U64) (hgt : g.last_timestamp < c i) :
    next_id g (fun j => some (c j)) fuel i =
      NextIdResult.ok
        (pack_id g.center_id g.worker_id (c i) (g.sequence &&& Constants.SEQUENCE_MASK))
        ⟨g.center_id, g.worker_id, g.sequence &&& Constants.SEQUENCE_MASK, c i⟩
        (i + 1) := by
  unfold next_id time_gen
  dsimp only
  rw [Nat.mod_eq_of_lt h64]
  rw [if_neg (by omega)]
  unfold next_id_seq next_id_store
  dsimp only
  rw [if_neg (by omega)]

/-- Witness for C4 (amended) at a state with stored sequence 7: the call
in a fresh millisecond mints sequence `7 &&& 4095 = 7`. -/
theorem c4_new_millis_sequence_masked_witness :
    next_id ⟨1, 1, 7, Constants.EPOCH⟩ (fun _ => some (Constants.EPOCH + 1)) 5 0 =
      NextIdResult.ok
        (pack_id 1 1 (Constants.EPOCH + 1) (7 &&& Constants.SEQUENCE_MASK))
        ⟨1, 1, 7 &&& Constants.SEQUENCE_MASK, Constants.EPOCH + 1⟩ 1 :=
  c4_new_millis_sequence_masked ⟨1, 1, 7, Constants.EPOCH⟩
    (fun _ => Constants.EPOCH + 1) 5 0 (by decide) (by decide)

-- ---------------------------------------------------------------- C8

/-- C8 (counterexample): when the first clock read fails (clock before the
Unix epoch), `next_id` does not return `SystemTimeError` to its caller —
the `.unwrap()` at generator.rs line 354 panics instead. -/
theorem c8_panics_not_error :
    next_id ⟨1, 1, 0, 0⟩ (fun _ => none) 5 0 = NextIdResult.panicked ∧
    NextIdResult.panicked ≠
      NextIdResult.err SnowflakeError.SystemTimeError ⟨1, 1, 0, 0⟩ 1 := by
  constructor
  · rfl
  · decide

/-- C8 (amended): `time_gen` itself surfaces `SystemTimeError` as a
distinct error value when the clock reads before its reference zero, but a
`next_id` call whose clock read fails panics (never returns); the only
error `next_id` returns is `ClockMovedBackwards`, and on that error-return
path the generator state is left untouched (sequence and `last_timestamp`
advance only when an id is minted). -/
theorem c8_error_surfacing (clock : Clock) (g : SnowflakeGenerator)
    (fuel i : Nat) (e : SnowflakeError) (g2 : SnowflakeGenerator) (i2 : Nat) :
    (clock i = none → time_gen clock i = Except.error SnowflakeError.SystemTimeError) ∧
    (clock i = none → next_id g clock fuel i = NextIdResult.panicked) ∧
    (next_id g clock fuel i = NextIdResult.err e g2 i2 →
      e = SnowflakeError.ClockMovedBackwards ∧ g2 = g) := by
  refine ⟨?_, ?_, ?_⟩
  · intro h
    unfold time_gen
    rw [h]
  · intro h
    unfold next_id time_gen
    rw [h]
  · intro h
    unfold next_id at h
    cases hr : time_gen clock i with
    | error e2 => rw [hr] at h; cases h
    | ok t =>
      rw [hr] at h
      dsimp only at h
      by_cases h1 : t < g.last_timestamp
      · rw [if_pos h1] at h
        by_cases h2 : g.last_timestamp - t ≤ 1 <<< 3
        · rw [if_pos h2] at h
          cases hr2 : time_gen clock (i + 1) with
          | error e3 => rw [hr2] at h; cases h
          | ok t2 =>
            rw [hr2] at h
            dsimp only at h
            by_cases h3 : t2 < g.last_timestamp
            · rw [if_pos h3] at h
              injection h with ha hb hc
              exact ⟨ha.symm, hb.symm⟩
            · rw [if_neg h3] at h
              exact absurd h (next_id_seq_ne_err g clock fuel (i + 2) t2 e g2 i2)
        · rw [if_neg h2] at h
          exact absurd h (next_id_seq_ne_err g clock fuel (i + 1) t e g2 i2)
      · rw [if_neg h1] at h
        exact absurd h (next_id_seq_ne_err g clock fuel (i + 1) t e g2 i2)

-- ---------------------------------------------------------------- C1

/-- C1: for every serial run of `next_id` calls on one instance built by
`new` with in-range ids, driven by a monotonically non-decreasing clock
(total, at or after the custom epoch, inside the 41-bit window and
eventually advancing over the readings the run consumes), all calls
succeed, the returned ids are strictly increasing, and each id equals the
documented packed combination
`((timestamp - EPOCH) << 22) | (center_id << 17) | (worker_id << 12) |
sequence` of that call's timestamp and sequence. -/
theorem c1_serial_ids_strictly_increasing (c : Nat → Nat)
    (fuel N n center_id worker_id : Nat) (g : SnowflakeGenerator)
    (hc : GoodClock c fuel N)
    (hnew : SnowflakeGenerator.new center_id worker_id = Except.ok g)
    (hwid : worker_id ≤ 31)
    (hbud : n * (fuel + 1) ≤ N) :
    ∃ out g2 i2,
      run_next_ids (fun j => some (c j)) fuel n g 0 = some (out, g2, i2) ∧
      out.length = n ∧
      (∀ x ∈ out,
        x.1 = ((x.2.1 - Constants.EPOCH) <<< 22) ||| (center_id <<< 17) |||
          (worker_id <<< 12) ||| x.2.2) ∧
      List.Chain' (fun a b => a < b) (out.map (fun x => x.1)) := by
  have hcent : center_id ≤ 31 ∧ g = ⟨center_id, worker_id, 0, 0⟩ := by
    unfold SnowflakeGenerator.new at hnew
    rw [MAX_DATA_CENTER_ID_eq, MAX_WORKER_ID_eq] at hnew
    by_cases h : center_id > 31
    · rw [if_pos h] at hnew
      cases hnew
    · rw [if_neg h, if_neg h] at hnew
      injection hnew with h2
      exact ⟨by omega, h2.symm⟩
  obtain ⟨hcid, hgval⟩ := hcent
  subst hgval
  obtain ⟨hmono, hlo, hhi, hprog⟩ := hc
  cases n with
  | zero =>
    refine ⟨[], _, _, rfl, rfl, ?_, ?_⟩
    · intro x hx
      cases hx
    · simp
  | succ m =>
    have h64 : c 0 < U64 := by
      have h := hhi 0 (by omega)
      rw [U64_eq]
      rw [show (2 : Nat) ^ 41 = 2199023255552 by norm_num, EPOCH_eq] at h
      omega
    have hgt : (0 : Nat) < c 0 := by
      have h := hlo 0
      rw [EPOCH_eq] at h
      omega
    have hstep1 : next_id ⟨center_id, worker_id, 0, 0⟩ (fun j => some (c j)) fuel 0 =
        NextIdResult.ok (pack_id center_id worker_id (c 0) 0)
          ⟨center_id, worker_id, 0, c 0⟩ 1 := by
      rw [next_id_no_regression ⟨center_id, worker_id, 0, 0⟩ c fuel 0 h64
            (Nat.le_of_lt hgt)]
      rw [next_id_seq_new_ms ⟨center_id, worker_id, 0, 0⟩ _ fuel 1 (c 0)
            (show c 0 ≠ (0 : Nat) by omega)]
      unfold next_id_store
      dsimp only
      rw [Nat.zero_and]
    have hInv1 : Inv c ⟨center_id, worker_id, 0, c 0⟩ 1 :=
      ⟨hcid, hwid, Nat.zero_le 4095, hlo 0, hhi 0 (by omega), hmono 0 1 (by omega)⟩
    rw [Nat.succ_mul] at hbud
    obtain ⟨out, g3, i3, hrun, hlen, hprops, hchain⟩ :=
      run_next_ids_spec c fuel N ⟨hmono, hlo, hhi, hprog⟩ m
        ⟨center_id, worker_id, 0, c 0⟩ 1 hInv1 (by omega)
    refine ⟨(pack_id center_id worker_id (c 0) 0, c 0, 0) :: out, g3, i3, ?_, ?_, ?_, ?_⟩
    · rw [run_next_ids_succ _ fuel m ⟨center_id, worker_id, 0, 0⟩ 0
            (pack_id center_id worker_id (c 0) 0)
            ⟨center_id, worker_id, 0, c 0⟩ 1 hstep1, hrun]
    · simp [hlen]
    · intro x hx
      cases hx with
      | head =>
        exact pack_id_eq_doc center_id worker_id (c 0) 0 hcid hwid
          (Nat.zero_le 4095) (hlo 0) (hhi 0 (by omega))
      | tail _ hx2 =>
        obtain ⟨ha, hb, hc2, hd⟩ := hprops x hx2
        rw [ha]
        exact pack_id_eq_doc center_id worker_id x.2.1 x.2.2 hcid hwid hb hc2 hd
    · simp only [List.map_cons]
      show List.Chain (fun a b => a < b) (pack_id center_id worker_id (c 0) 0)
        (out.map (fun x => x.1))
      exact hchain

/-- Witness for C1: two calls against the clock `EPOCH + min j 40` with
fuel 2 and read horizon 20. -/
theorem c1_serial_ids_strictly_increasing_witness :
    ∃ out g2 i2,
      run_next_ids (fun j => some (Constants.EPOCH + min j 40)) 2 2 ⟨1, 1, 0, 0⟩ 0 =
        some (out, g2, i2) ∧
      out.length = 2 ∧
      (∀ x ∈ out,
        x.1 = ((x.2.1 - Constants.EPOCH) <<< 22) ||| ((1 : Nat) <<< 17) |||
          ((1 : Nat) <<< 12) ||| x.2.2) ∧
      List.Chain' (fun a b => a < b) (out.map (fun x => x.1)) :=
  c1_serial_ids_strictly_increasing (fun j => Constants.EPOCH + min j 40) 2 20 2 1 1
    ⟨1, 1, 0, 0⟩
    ⟨fun j k h => by dsimp only; omega,
     fun j => by dsimp only; omega,
     fun j hj => by
       dsimp only
       have h41 : (2 : Nat) ^ 41 = 2199023255552 := by norm_num
       omega,
     fun j hj => ⟨1, by omega, by dsimp only; omega⟩⟩
    rfl (by omega) (by omega)

-- ---------------------------------------------------------------- C5

/-- C5: when the 4096-id budget of the current millisecond is exhausted
(stored sequence 4095 and the reading equals `last_timestamp`), and some
reading within the fuel window strictly exceeds the current one, the
busy-wait `til_next_millis(last_timestamp)` returns — it does not fail —
with a reading strictly greater than `last_timestamp`, and the call mints
its id at that strictly later timestamp with sequence 0. -/
theorem c5_sequence_exhaustion (c : Nat → Nat) (fuel : Nat)
    (g : SnowflakeGenerator) (i : Nat)
    (h64 : ∀ j, j < i + 1 + fuel → c j < U64)
    (hsame : c i = g.last_timestamp)
    (hseq : g.sequence = 4095)
    (hprog : ∃ k, k < fuel ∧ c i < c (i + 1 + k)) :
    ∃ t2 i2,
      til_next_millis (fun j => some (c j)) fuel (i + 1) (c i) = TilResult.ok t2 i2 ∧
      g.last_timestamp < t2 ∧
      next_id g (fun j => some (c j)) fuel i =
        NextIdResult.ok (pack_id g.center_id g.worker_id t2 0)
          ⟨g.center_id, g.worker_id, 0, t2⟩ i2 := by
  obtain ⟨t2, i2, htil, ht1, hti, htc, htb⟩ :=
    til_next_millis_ok c fuel (i + 1) (c i)
      (by intro j hj; exact h64 j (by omega)) hprog
  refine ⟨t2, i2, htil, by omega, ?_⟩
  rw [next_id_no_regression g c fuel i (h64 i (by omega)) (le_of_eq hsame.symm)]
  rw [next_id_seq_same_wrap_ok g _ fuel (i + 1) (c i) t2 i2 hsame
        (by rw [hseq, U64_eq]; omega) (by simp [hseq]) htil]
  rfl

/-- Witness for C5: sequence 4095 at millisecond `EPOCH + 1`, next reading
already one millisecond later. -/
theorem c5_sequence_exhaustion_witness :
    ∃ t2 i2,
      til_next_millis (fun j => some (1680646028001 + min j 10)) 2 1 1680646028001 =
        TilResult.ok t2 i2 ∧
      (1680646028001 : Nat) < t2 ∧
      next_id ⟨1, 1, 4095, 1680646028001⟩ (fun j => some (1680646028001 + min j 10)) 2 0 =
        NextIdResult.ok (pack_id 1 1 t2 0) ⟨1, 1, 0, t2⟩ i2 := by
  have h := c5_sequence_exhaustion (fun j => 1680646028001 + min j 10) 2
    ⟨1, 1, 4095, 1680646028001⟩ 0
    (by intro j hj; dsimp only; rw [U64_eq]; omega)
    (by dsimp only; omega)
    rfl
    ⟨1, by omega, by dsimp only; omega⟩
  exact h

-- ---------------------------------------------------------------- C7

/-- C7: for every id minted by a successful `next_id` call on a generator
whose `center_id` and `worker_id` are at most 31, the documented
extraction shifts and masks recover exactly those two node ids:
`(id >> 17) & 31 = center_id` and `(id >> 12) & 31 = worker_id`. -/
theorem c7_round_trip (g : SnowflakeGenerator) (clock : Clock) (fuel i v : Nat)
    (g2 : SnowflakeGenerator) (i2 : Nat)
    (hcid : g.center_id ≤ 31) (hwid : g.worker_id ≤ 31)
    (hok : next_id g clock fuel i = NextIdResult.ok v g2 i2) :
    (v >>> 17) &&& 31 = g.center_id ∧ (v >>> 12) &&& 31 = g.worker_id := by
  obtain ⟨hv, _, _, hseq⟩ := next_id_ok_shape g clock fuel i v g2 i2 hok
  rw [hv, pack_id_repr g.center_id g.worker_id g2.last_timestamp g2.sequence
        hcid hwid hseq]
  exact extract_fields _ g.center_id g.worker_id g2.sequence hcid hwid hseq

/-- Witness for C7: a generator with center 3 and worker 5 mints id
4608000, and the extraction shifts recover 3 and 5. -/
theorem c7_round_trip_witness :
    ((4608000 : Nat) >>> 17) &&& 31 = 3 ∧ ((4608000 : Nat) >>> 12) &&& 31 = 5 :=
  c7_round_trip ⟨3, 5, 0, 0⟩ (fun _ => some 1680646028001) 5 0 4608000
    ⟨3, 5, 0, 1680646028001⟩ 1 (by decide) (by decide) (by decide)

/-- Witness for C8 (amended) at the always-failing clock. -/
theorem c8_error_surfacing_witness :
    time_gen (fun _ => none) 0 = Except.error SnowflakeError.SystemTimeError ∧
    next_id ⟨1, 1, 0, 0⟩ (fun _ => none) 5 0 = NextIdResult.panicked :=
  ⟨(c8_error_surfacing (fun _ => none) ⟨1, 1, 0, 0⟩ 5 0
      SnowflakeError.ClockMovedBackwards ⟨1, 1, 0, 0⟩ 0).1 rfl,
   (c8_error_surfacing (fun _ => none) ⟨1, 1, 0, 0⟩ 5 0
      SnowflakeError.ClockMovedBackwards ⟨1, 1, 0, 0⟩ 0).2.1 rfl⟩

end Snowflake
